import Mathlib

/-!
Verification of the event-ingestion path of the repository
(src/streaming/stream_events.py and src/dashboard/app.py).

The Python code is shallowly embedded below: pure functions become Lean
functions over Nat, Int, String and List; the fallible BigQuery client
calls are passed in as explicit outcome values; machine words of the
SHA-256 digest are Nat reduced modulo 2 ^ 32.
-/

namespace CustomerLabs

/-! ## SHA-256 (hashlib.sha256), FIPS 180-4, over byte lists -/

/-- Reduce a natural number to a 32-bit word. -/
def w32 (n : Nat) : Nat := n % 4294967296

/-- Right rotation of a 32-bit word by k bits. -/
def rotr (k x : Nat) : Nat := w32 (x / 2 ^ k + x * 2 ^ (32 - k))

/-- Logical right shift by k bits. -/
def shr (k x : Nat) : Nat := x / 2 ^ k

/-- Bitwise complement of a 32-bit word. -/
def bnot32 (x : Nat) : Nat := x ^^^ 4294967295

/-- SHA-256 choice function. -/
def ch (x y z : Nat) : Nat := (x &&& y) ^^^ (bnot32 x &&& z)

/-- SHA-256 majority function. -/
def maj (x y z : Nat) : Nat := (x &&& y) ^^^ (x &&& z) ^^^ (y &&& z)

def bsig0 (x : Nat) : Nat := rotr 2 x ^^^ rotr 13 x ^^^ rotr 22 x

def bsig1 (x : Nat) : Nat := rotr 6 x ^^^ rotr 11 x ^^^ rotr 25 x

def ssig0 (x : Nat) : Nat := rotr 7 x ^^^ rotr 18 x ^^^ shr 3 x

def ssig1 (x : Nat) : Nat := rotr 17 x ^^^ rotr 19 x ^^^ shr 10 x

/-- The 64 SHA-256 round constants, written in decimal. -/
def K : List Nat :=
  [1116352408, 1899447441, 3049323471, 3921009573, 961987163, 1508970993,
   2453635748, 2870763221, 3624381080, 310598401, 607225278, 1426881987,
   1925078388, 2162078206, 2614888103, 3248222580, 3835390401, 4022224774,
   264347078, 604807628, 770255983, 1249150122, 1555081692, 1996064986,
   2554220882, 2821834349, 2952996808, 3210313671, 3336571891, 3584528711,
   113926993, 338241895, 666307205, 773529912, 1294757372, 1396182291,
   1695183700, 1986661051, 2177026350, 2456956037, 2730485921, 2820302411,
   3259730800, 3345764771, 3516065817, 3600352804, 4094571909, 275423344,
   430227734, 506948616, 659060556, 883997877, 958139571, 1322822218,
   1537002063, 1747873779, 1955562222, 2024104815, 2227730452, 2361852424,
   2428436474, 2756734187, 3204031479, 3329325298]

/-- The eight 32-bit words of the SHA-256 working state. -/
structure Hash8 where
  h0 : Nat
  h1 : Nat
  h2 : Nat
  h3 : Nat
  h4 : Nat
  h5 : Nat
  h6 : Nat
  h7 : Nat
deriving DecidableEq

/-- The SHA-256 initial hash value, written in decimal. -/
def initH : Hash8 :=
  ⟨1779033703, 3144134277, 1013904242, 2773480762,
   1359893119, 2600822924, 528734635, 1541459225⟩

/-- One step of the message-schedule extension: appends the next word. -/
def extendSchedule (ws : List Nat) : List Nat :=
  let n := ws.length
  ws ++ [w32 (ssig1 (ws.getD (n - 2) 0) + ws.getD (n - 7) 0 +
              ssig0 (ws.getD (n - 15) 0) + ws.getD (n - 16) 0)]

/-- Expand a 16-word block to the 64-word message schedule. -/
def schedule (block : List Nat) : List Nat := extendSchedule^[48] block

/-- One SHA-256 compression round; kw is the pair of round constant and schedule word. -/
def round (st : Hash8) (kw : Nat × Nat) : Hash8 :=
  let t1 := w32 (st.h7 + bsig1 st.h4 + ch st.h4 st.h5 st.h6 + kw.1 + kw.2)
  let t2 := w32 (bsig0 st.h0 + maj st.h0 st.h1 st.h2)
  ⟨w32 (t1 + t2), st.h0, st.h1, st.h2, w32 (st.h3 + t1), st.h4, st.h5, st.h6⟩

/-- Process one 16-word block against the running hash state. -/
def processBlock (st : Hash8) (block : List Nat) : Hash8 :=
  let f := (K.zip (schedule block)).foldl round st
  ⟨w32 (st.h0 + f.h0), w32 (st.h1 + f.h1), w32 (st.h2 + f.h2), w32 (st.h3 + f.h3),
   w32 (st.h4 + f.h4), w32 (st.h5 + f.h5), w32 (st.h6 + f.h6), w32 (st.h7 + f.h7)⟩

/-- Big-endian byte expansion of n into k bytes. -/
def toBytesBE (k n : Nat) : List Nat :=
  (List.range k).map (fun i => n / 2 ^ (8 * (k - 1 - i)) % 256)

/-- SHA-256 padding: append 0x80, zero bytes, and the 64-bit big-endian bit length. -/
def pad (msg : List Nat) : List Nat :=
  msg ++ 128 :: List.replicate ((119 - msg.length % 64) % 64) 0 ++ toBytesBE 8 (8 * msg.length)

/-- Group a byte list into big-endian 32-bit words. -/
def toWords : List Nat → List Nat
  | b0 :: b1 :: b2 :: b3 :: rest =>
      (b0 * 16777216 + b1 * 65536 + b2 * 256 + b3) :: toWords rest
  | _ => []

/-- Group a word list into chunks of 16 words. -/
def chunk16 : List Nat → List (List Nat)
  | [] => []
  | w :: ws => ((w :: ws).take 16) :: chunk16 ((w :: ws).drop 16)
termination_by l => l.length
decreasing_by
  simp [List.length_drop]
  omega

/-- The SHA-256 state after absorbing the whole padded message. -/
def sha256State (msg : List Nat) : Hash8 :=
  (chunk16 (toWords (pad msg))).foldl processBlock initH

/-- Serialize the final state to the 32-byte digest. -/
def digestBytes (st : Hash8) : List Nat :=
  toBytesBE 4 st.h0 ++ toBytesBE 4 st.h1 ++ toBytesBE 4 st.h2 ++ toBytesBE 4 st.h3 ++
  toBytesBE 4 st.h4 ++ toBytesBE 4 st.h5 ++ toBytesBE 4 st.h6 ++ toBytesBE 4 st.h7

/-- SHA-256 digest of a byte list. -/
def sha256 (msg : List Nat) : List Nat := digestBytes (sha256State msg)

/-- Lowercase hexadecimal character for a nibble. -/
def hexChar (n : Nat) : Char := if n < 10 then Char.ofNat (48 + n) else Char.ofNat (87 + n)

/-- Lowercase hexadecimal rendering of a byte list, two characters per byte. -/
def hexOfBytes : List Nat → List Char
  | [] => []
  | b :: bs => hexChar (b / 16) :: hexChar (b % 16) :: hexOfBytes bs

/-- The hexdigest method of hashlib.sha256: 64 lowercase hex characters. -/
def hexdigest (msg : List Nat) : List Char := hexOfBytes (sha256 msg)

/-- A lowercase hexadecimal digit: 0 to 9 or a to f. -/
def isHexChar (c : Char) : Bool :=
  (48 ≤ c.toNat && c.toNat ≤ 57) || (97 ≤ c.toNat && c.toNat ≤ 102)

/-- UTF-8 encoding of a single code point. -/
def utf8Bytes (n : Nat) : List Nat :=
  if n < 128 then [n]
  else if n < 2048 then [192 + n / 64, 128 + n % 64]
  else if n < 65536 then [224 + n / 4096, 128 + n / 64 % 64, 128 + n % 64]
  else [240 + n / 262144, 128 + n / 4096 % 64, 128 + n / 64 % 64, 128 + n % 64]

/-- The str.encode method: UTF-8 bytes of a string. -/
def encode (s : String) : List Nat := s.data.flatMap (fun c => utf8Bytes c.toNat)

/-! ## EventStreamer.generate_event_id (src/streaming/stream_events.py lines 116-119) -/

/-- The f-string of generate_event_id, joining the three identity fields with a dash. -/
def uniqueString (user_id event_name : String) (timestamp : Nat) : String :=
  user_id ++ "-" ++ event_name ++ "-" ++ toString timestamp

/-- EventStreamer.generate_event_id: the first 16 hex characters of the SHA-256
hexdigest of the dash-joined identity fields. No input validation is performed. -/
def generate_event_id (user_id event_name : String) (timestamp : Nat) : String :=
  String.mk ((hexdigest (encode (uniqueString user_id event_name timestamp))).take 16)

/-! ## EventStreamer.stream_events (src/streaming/stream_events.py lines 186-210)

The method is decorated with retry.Retry with a 30 second deadline.  One
invocation of the undecorated body submits the full event list to
client.insert_rows_json together with per-row insertIds, measures the wall
clock around that single call, and returns a result dict.  The BigQuery
client is external: its behavior is passed in as an explicit trace, one
entry per attempt, holding the outcome of the insert_rows_json call and the
wall-clock seconds consumed by that attempt including any backoff sleep. -/

/-- One event as handed to stream_events; only the event_id field is read
by the ingestion path, the remaining payload is opaque. -/
structure GAEvent where
  event_id : String
  payload : String
deriving DecidableEq

/-- One element of the error list returned by insert_rows_json: the index
of the rejected row and its error message. -/
structure InsertError where
  index : Nat
  message : String
deriving DecidableEq

/-- Outcome of one insert_rows_json call: either it returns a list of
row-level errors (empty on full success), or it raises a transient error
that the retry decorator catches. -/
inductive AttemptResponse
  | errors (errs : List InsertError)
  | transientExn
deriving DecidableEq

/-- The result dict built by stream_events.  The two shapes in the source
share the success flag and latency; the error list is present only on the
failure path and the inserted-row count only on the success path. -/
structure StreamValue where
  success : Bool
  errors : Option (List InsertError)
  rows_inserted : Option Nat
  latency_seconds : Nat
deriving DecidableEq

/-- One call issued to the store write interface: the submitted row
payloads and the parallel list of row-level insertIds. -/
structure StoreCall where
  rows : List GAEvent
  row_ids : List String
deriving DecidableEq

/-- The undecorated body of stream_events, given the error list returned by
insert_rows_json and the measured latency of this attempt: on a non-empty
error list it returns the failure dict, otherwise the success dict counting
every submitted event. -/
def streamAttempt (events : List GAEvent) (errs : List InsertError) (latency : Nat) : StreamValue :=
  if errs ≠ [] then
    { success := false, errors := some errs, rows_inserted := none, latency_seconds := latency }
  else
    { success := true, errors := none, rows_inserted := some events.length,
      latency_seconds := latency }

/-- The single store write call issued by one attempt of stream_events:
all events with their event_id fields as insertIds. -/
def attemptCalls (events : List GAEvent) : List StoreCall :=
  [{ rows := events, row_ids := events.map GAEvent.event_id }]

/-- The exception with which a retried call can terminate: RetryError once
the deadline is exceeded; exhausted marks the modelling artifact of a trace
that ends before the call resolves. -/
inductive RetryErr
  | deadlineExceeded
  | exhausted
deriving DecidableEq

/-- The retry.Retry decorator around the stream_events body: each attempt
re-executes the entire body (resubmitting the full batch); a returned error
list ends the call with the corresponding result dict; a transient
exception is retried until the cumulative wall clock reaches the deadline,
at which point RetryError is raised.  The second component collects every
store write call issued during the run. -/
def runRetry (deadline : Nat) (events : List GAEvent) :
    Nat → List (AttemptResponse × Nat) → Except RetryErr StreamValue × List StoreCall
  | _, [] => (Except.error RetryErr.exhausted, [])
  | elapsed, (resp, dt) :: rest =>
    match resp with
    | AttemptResponse.errors errs => (Except.ok (streamAttempt events errs dt), attemptCalls events)
    | AttemptResponse.transientExn =>
      if deadline ≤ elapsed + dt then (Except.error RetryErr.deadlineExceeded, attemptCalls events)
      else ((runRetry deadline events (elapsed + dt) rest).1,
            attemptCalls events ++ (runRetry deadline events (elapsed + dt) rest).2)

/-- EventStreamer.stream_events as decorated: retry.Retry with deadline 30. -/
def stream_events (events : List GAEvent) (trace : List (AttemptResponse × Nat)) :
    Except RetryErr StreamValue × List StoreCall :=
  runRetry 30 events 0 trace

/-! ## EventStreamer.verify_deduplication (src/streaming/stream_events.py lines 212-223)

The method runs SELECT COUNT(*) WHERE event_id equals the given key and
returns count == 1.  The store table is embedded as the list of its rows;
the COUNT query is the length of the filtered list. -/

/-- One stored row, projected to the only column the dedup query reads. -/
structure StoredRow where
  event_id : String
deriving DecidableEq

/-- The COUNT(*) of rows whose event_id equals the given key. -/
def dedupQueryCount (store : List StoredRow) (eid : String) : Nat :=
  (store.filter (fun r => r.event_id == eid)).length

/-- EventStreamer.verify_deduplication: true when the count is exactly one. -/
def verify_deduplication (store : List StoredRow) (eid : String) : Bool :=
  dedupQueryCount store eid == 1

/-! ## Freshness reads

load_live_events (src/dashboard/app.py lines 149-170) and
EventStreamer.get_recent_events (src/streaming/stream_events.py lines
225-242) both read the most recently ingested rows ordered by
ingestion_timestamp descending.  The BigQuery query is external; its
outcome, either the row list or a raised error, is passed in explicitly. -/

/-- A failure of the backing query: the streaming table does not exist yet,
or the query fails with some message. -/
inductive QueryError
  | tableNotFound
  | queryFailed (message : String)
deriving DecidableEq

/-- A row of the dashboard live-events query, projected to the columns the
status logic reads; seconds_ago is TIMESTAMP_DIFF of now and the ingestion
timestamp in seconds. -/
structure LiveEventRow where
  event_id : String
  event_name : String
  user_pseudo_id : String
  seconds_ago : Int
deriving DecidableEq

/-- load_live_events: the query runs inside try/except, and any raised
error is swallowed into an empty dataframe. -/
def load_live_events (queryOutcome : Except QueryError (List LiveEventRow)) :
    List LiveEventRow :=
  match queryOutcome with
  | Except.ok df => df
  | Except.error _ => []

/-- A row of the get_recent_events query projection. -/
structure RecentEventRow where
  event_id : String
  event_name : String
  user_pseudo_id : String
deriving DecidableEq

/-- EventStreamer.get_recent_events: the query result is converted row by
row to dicts; there is no error handling, so a raised query error
propagates to the caller. -/
def get_recent_events (queryOutcome : Except QueryError (List RecentEventRow)) :
    Except QueryError (List RecentEventRow) :=
  match queryOutcome with
  | Except.ok results => Except.ok (results.map (fun row => row))
  | Except.error e => Except.error e

/-! ## Live-feed freshness banner (src/dashboard/app.py lines 390-398) -/

/-- The status box the dashboard renders: st.success, st.warning or
st.error, with the leading status word of the message. -/
inductive Banner
  | success (label : String)
  | warning (label : String)
  | error (label : String)
deriving DecidableEq

/-- The three-way classification of the minimum seconds_ago value in main:
below 60 a success box labelled Live, below 300 a warning box labelled
Recent, otherwise an error box labelled Stale. -/
def freshnessBanner (most_recent_seconds : Int) : Banner :=
  if most_recent_seconds < 60 then Banner.success "Live"
  else if most_recent_seconds < 300 then Banner.warning "Recent"
  else Banner.error "Stale"

/-- The banner main shows for the live-events dataframe: none when the
dataframe is empty, otherwise the classification of the minimum of the
seconds_ago column. -/
def liveFeedStatus (seconds_ago_column : List Int) : Option Banner :=
  match seconds_ago_column.min? with
  | some m => some (freshnessBanner m)
  | none => none

/-- Modelled from the spec: the freshness policy tiers, "age < 60s yields
live; age < 300s yields degraded; otherwise stale". -/
inductive SpecFreshness
  | live
  | degraded
  | stale
deriving DecidableEq

/-- Modelled from the spec: the pure classification of an age in seconds
into the three freshness tiers. -/
def specFreshnessClass (age : Int) : SpecFreshness :=
  if age < 60 then SpecFreshness.live
  else if age < 300 then SpecFreshness.degraded
  else SpecFreshness.stale

/-! ## Helper lemmas about the digest shape -/

theorem length_toBytesBE (k n : Nat) : (toBytesBE k n).length = k := by
  simp [toBytesBE]

theorem lt_of_mem_toBytesBE {k n b : Nat} (h : b ∈ toBytesBE k n) : b < 256 := by
  simp only [toBytesBE, List.mem_map, List.mem_range] at h
  obtain ⟨i, _, rfl⟩ := h
  exact Nat.mod_lt _ (by omega)

theorem length_sha256 (msg : List Nat) : (sha256 msg).length = 32 := by
  simp [sha256, digestBytes, length_toBytesBE]

theorem lt_of_mem_sha256 {msg : List Nat} {b : Nat} (h : b ∈ sha256 msg) : b < 256 := by
  simp only [sha256, digestBytes, List.mem_append] at h
  rcases h with ((((((h | h) | h) | h) | h) | h) | h) | h <;> exact lt_of_mem_toBytesBE h

theorem length_hexOfBytes (bs : List Nat) : (hexOfBytes bs).length = 2 * bs.length := by
  induction bs with
  | nil => rfl
  | cons b bs ih =>
    simp only [hexOfBytes, List.length_cons, ih]
    omega

theorem isHexChar_hexChar {n : Nat} (h : n < 16) : isHexChar (hexChar n) = true := by
  interval_cases n <;> decide

theorem isHexChar_of_mem_hexOfBytes {bs : List Nat} (hb : ∀ b ∈ bs, b < 256) :
    ∀ c ∈ hexOfBytes bs, isHexChar c = true := by
  induction bs with
  | nil => intro c hc; simp [hexOfBytes] at hc
  | cons b bs ih =>
    intro c hc
    have hblt : b < 256 := hb b (by simp)
    simp only [hexOfBytes, List.mem_cons] at hc
    rcases hc with rfl | rfl | hc
    · exact isHexChar_hexChar (by omega)
    · exact isHexChar_hexChar (Nat.mod_lt _ (by omega))
    · exact ih (fun x hx => hb x (List.mem_cons_of_mem b hx)) c hc

theorem length_hexdigest (msg : List Nat) : (hexdigest msg).length = 64 := by
  simp [hexdigest, length_hexOfBytes, length_sha256]

theorem isHexChar_of_mem_hexdigest {msg : List Nat} :
    ∀ c ∈ hexdigest msg, isHexChar c = true :=
  isHexChar_of_mem_hexOfBytes (fun _ hb => lt_of_mem_sha256 hb)

theorem generate_event_id_length (a e : String) (t : Nat) :
    (generate_event_id a e t).length = 16 := by
  show ((hexdigest (encode (uniqueString a e t))).take 16).length = 16
  rw [List.length_take, length_hexdigest]
  rfl

theorem generate_event_id_hexchars (a e : String) (t : Nat) :
    ∀ c ∈ (generate_event_id a e t).data, isHexChar c = true := by
  intro c hc
  exact isHexChar_of_mem_hexdigest c (List.take_subset 16 _ hc)

/-! ## Helper lemmas about the retry loop -/

theorem runRetry_calls (deadline : Nat) (events : List GAEvent) (elapsed : Nat)
    (trace : List (AttemptResponse × Nat)) :
    ∀ call ∈ (runRetry deadline events elapsed trace).2,
      call.rows = events ∧ call.row_ids = events.map GAEvent.event_id := by
  induction trace generalizing elapsed with
  | nil => intro call hc; simp [runRetry] at hc
  | cons p rest ih =>
    intro call hc
    obtain ⟨resp, dt⟩ := p
    cases resp with
    | errors errs =>
      simp only [runRetry, attemptCalls, List.mem_singleton] at hc
      subst hc
      exact ⟨rfl, rfl⟩
    | transientExn =>
      simp only [runRetry] at hc
      by_cases hd : deadline ≤ elapsed + dt
      · simp only [if_pos hd, attemptCalls, List.mem_singleton] at hc
        subst hc
        exact ⟨rfl, rfl⟩
      · simp only [if_neg hd, attemptCalls, List.mem_append, List.mem_singleton] at hc
        rcases hc with rfl | hc
        · exact ⟨rfl, rfl⟩
        · exact ih (elapsed + dt) call hc

theorem runRetry_all_transient (deadline : Nat) (events : List GAEvent) (elapsed : Nat)
    (trace : List (AttemptResponse × Nat))
    (h1 : ∀ p ∈ trace, p.1 = AttemptResponse.transientExn)
    (h2 : trace ≠ [])
    (h3 : deadline ≤ elapsed + (trace.map Prod.snd).sum) :
    (runRetry deadline events elapsed trace).1 = Except.error RetryErr.deadlineExceeded := by
  induction trace generalizing elapsed with
  | nil => exact absurd rfl h2
  | cons p rest ih =>
    obtain ⟨resp, dt⟩ := p
    have hp : resp = AttemptResponse.transientExn := h1 (resp, dt) (List.mem_cons_self _ _)
    subst hp
    by_cases hd : deadline ≤ elapsed + dt
    · simp [runRetry, if_pos hd]
    · have hrest : rest ≠ [] := by
        intro hr
        subst hr
        simp only [List.map_cons, List.map_nil, List.sum_cons, List.sum_nil] at h3
        omega
      have h3r : deadline ≤ (elapsed + dt) + (rest.map Prod.snd).sum := by
        simp only [List.map_cons, List.sum_cons] at h3
        omega
      simp only [runRetry, if_neg hd]
      exact ih (elapsed + dt) (fun q hq => h1 q (List.mem_cons_of_mem _ hq)) hrest h3r

/-! ## Claim C1: the idempotency key on identical and on differing triples -/

/-- Claim C1 counterexample: the triples (a-b, c, 1) and (a, b-c, 1) differ
in both string fields, yet their dash-joined concatenations coincide, so
generate_event_id maps them to the same key; the dash separator does not
rule out ambiguous concatenation. -/
theorem event_id_separator_collision :
    (("a-b", "c", (1 : Nat)) ≠ (("a" : String), ("b-c" : String), (1 : Nat))) ∧
    generate_event_id "a-b" "c" 1 = generate_event_id "a" "b-c" 1 := by
  refine ⟨by decide, ?_⟩
  exact congrArg (fun s => String.mk ((hexdigest (encode s)).take 16))
    (by decide : uniqueString "a-b" "c" 1 = uniqueString "a" "b-c" 1)

/-- Claim C1 amended: events with identical (actor_id, event_name,
logical_timestamp) triples always receive identical keys, and the key is a
function of the dash-joined concatenation alone, so distinct triples whose
joined concatenations coincide also receive identical keys. -/
theorem generate_event_id_amended (a e : String) (t : Nat) (a2 e2 : String) (t2 : Nat) :
    (a = a2 ∧ e = e2 ∧ t = t2 → generate_event_id a e t = generate_event_id a2 e2 t2) ∧
    (uniqueString a e t = uniqueString a2 e2 t2 →
      generate_event_id a e t = generate_event_id a2 e2 t2) := by
  constructor
  · rintro ⟨rfl, rfl, rfl⟩
    rfl
  · intro h
    exact congrArg (fun s => String.mk ((hexdigest (encode s)).take 16)) h

/-- Witness for the amended claim C1 at concrete colliding inputs. -/
theorem generate_event_id_amended_witness :
    generate_event_id "x-y" "z" 7 = generate_event_id "x" "y-z" 7 :=
  (generate_event_id_amended "x-y" "z" 7 "x" "y-z" 7).2 (by decide)

/-! ## Claim C5: no input validation in generate_event_id -/

/-- Claim C5 counterexample: an empty actor_id is not rejected; the code
hashes the dash-joined string anyway and returns an ordinary 16-character
key. -/
theorem empty_actor_id_not_rejected :
    (generate_event_id "" "page_view" 0).length = 16 ∧
    generate_event_id "" "page_view" 0 = String.mk ((hexdigest (encode "-page_view-0")).take 16) := by
  refine ⟨generate_event_id_length "" "page_view" 0, ?_⟩
  exact congrArg (fun s => String.mk ((hexdigest (encode s)).take 16))
    (by decide : uniqueString "" "page_view" 0 = "-page_view-0")

/-- Claim C5 amended: generate_event_id performs no validation at all; on
an empty actor_id or event_name it still hashes the dash-joined string and
returns an ordinary 16-character key, and it is total and pure with no
failure mode. -/
theorem generate_event_id_no_validation (a e : String) (t : Nat) (_h : a = "" ∨ e = "") :
    (generate_event_id a e t).length = 16 ∧
    generate_event_id a e t = String.mk ((hexdigest (encode (uniqueString a e t))).take 16) :=
  ⟨generate_event_id_length a e t, rfl⟩

/-- Witness for the amended claim C5 at an empty actor_id. -/
theorem generate_event_id_no_validation_witness :
    (generate_event_id "" "page_view" 7).length = 16 ∧
    generate_event_id "" "page_view" 7 =
      String.mk ((hexdigest (encode (uniqueString "" "page_view" 7))).take 16) :=
  generate_event_id_no_validation "" "page_view" 7 (Or.inl rfl)

/-! ## Claim C6: determinism and fixed width of the idempotency key -/

/-- Claim C6: deriving the key twice for the same triple yields the same
key, and the key is a string of exactly 16 hexadecimal characters. -/
theorem generate_event_id_deterministic_fixed_width (a e : String) (t : Nat) :
    generate_event_id a e t = generate_event_id a e t ∧
    (generate_event_id a e t).length = 16 ∧
    (∀ c ∈ (generate_event_id a e t).data, isHexChar c = true) :=
  ⟨rfl, generate_event_id_length a e t, generate_event_id_hexchars a e t⟩

/-! ## Claim C2: shape of the stream_events result record -/

/-- Claim C2 counterexample: on a partial failure (the store reports one
row-level error for a two-row batch) the result record carries the error
list and the latency but neither a total-rows-submitted nor a
rows-acknowledged count; and when a transient failure forces a retry, the
reported latency covers only the final attempt (3 seconds), not the wall
clock from the first submission (8 seconds). -/
theorem stream_events_result_missing_counts :
    streamAttempt [⟨"k1", "p"⟩, ⟨"k2", "q"⟩] [⟨0, "invalid row"⟩] 2 =
      { success := false, errors := some [⟨0, "invalid row"⟩], rows_inserted := none,
        latency_seconds := 2 } ∧
    (stream_events [⟨"k1", "p"⟩] [(AttemptResponse.transientExn, 5),
        (AttemptResponse.errors [], 3)]).1 =
      Except.ok
        { success := true, errors := none, rows_inserted := some 1,
          latency_seconds := 3 } :=
  ⟨rfl, rfl⟩

/-- Claim C2 amended: when the store write returns a row-error list the
call never raises and yields a structured record; on a non-empty error
list that record holds the success flag, the error list and the latency of
that attempt, but no row counts; on an empty error list it holds the
inserted-row count equal to the batch length and the latency. -/
theorem stream_events_structured_result (events : List GAEvent) (errs : List InsertError)
    (dt : Nat) (rest : List (AttemptResponse × Nat)) :
    (stream_events events ((AttemptResponse.errors errs, dt) :: rest)).1 =
      Except.ok (streamAttempt events errs dt) ∧
    streamAttempt events errs dt =
      (if errs ≠ [] then
        { success := false, errors := some errs, rows_inserted := none, latency_seconds := dt }
       else
        { success := true, errors := none, rows_inserted := some events.length,
          latency_seconds := dt }) :=
  ⟨rfl, rfl⟩

/-! ## Claim C3: retry behavior of stream_events -/

/-- Claim C3 counterexample: after a transient failure of the first
attempt, the second attempt resubmits the entire two-row batch, not only an
unacknowledged portion; and when transient failures consume the whole
30-second deadline the call raises RetryError instead of returning a
structured DeadlineExceeded report of unacknowledged rows. -/
theorem stream_events_resubmits_full_batch :
    (stream_events [⟨"k1", "p"⟩, ⟨"k2", "q"⟩] [(AttemptResponse.transientExn, 1),
        (AttemptResponse.errors [], 1)]).2 =
      [{ rows := [⟨"k1", "p"⟩, ⟨"k2", "q"⟩], row_ids := ["k1", "k2"] },
       { rows := [⟨"k1", "p"⟩, ⟨"k2", "q"⟩], row_ids := ["k1", "k2"] }] ∧
    (stream_events [⟨"k1", "p"⟩, ⟨"k2", "q"⟩] [(AttemptResponse.transientExn, 40)]).1 =
      Except.error RetryErr.deadlineExceeded :=
  ⟨rfl, rfl⟩

/-- Claim C3 amended: every attempt of the retried call, first or retry,
submits the full original batch with its insertIds (the code tracks no
per-row acknowledgment), and when the attempts all fail transiently and
their cumulative wall clock reaches the 30-second deadline the call
terminates with a raised RetryError carrying no row report. -/
theorem stream_events_retry_amended (events : List GAEvent)
    (trace : List (AttemptResponse × Nat)) :
    (∀ call ∈ (stream_events events trace).2,
        call.rows = events ∧ call.row_ids = events.map GAEvent.event_id) ∧
    ((∀ p ∈ trace, p.1 = AttemptResponse.transientExn) → trace ≠ [] →
      30 ≤ (trace.map Prod.snd).sum →
      (stream_events events trace).1 = Except.error RetryErr.deadlineExceeded) := by
  constructor
  · exact runRetry_calls 30 events 0 trace
  · intro h1 h2 h3
    exact runRetry_all_transient 30 events 0 trace h1 h2 (by omega)

/-- Witness for the amended claim C3 at a concrete one-row batch whose
single attempt fails transiently past the deadline. -/
theorem stream_events_retry_amended_witness :
    (stream_events [⟨"k1", "p"⟩] [(AttemptResponse.transientExn, 31)]).1 =
      Except.error RetryErr.deadlineExceeded :=
  (stream_events_retry_amended [⟨"k1", "p"⟩] [(AttemptResponse.transientExn, 31)]).2
    (by decide) (by decide) (by decide)

/-! ## Claim C4: the empty batch -/

/-- Claim C4 counterexample: the empty batch is not rejected; the code
issues the store write call with an empty row list (a network interaction)
and returns an ordinary success record with zero rows inserted, not an
InvalidArgument error. -/
theorem empty_batch_not_rejected :
    (stream_events [] [(AttemptResponse.errors [], 1)]).2 =
      [{ rows := [], row_ids := [] }] ∧
    (stream_events [] [(AttemptResponse.errors [], 1)]).1 =
      Except.ok
        { success := true, errors := none, rows_inserted := some 0,
          latency_seconds := 1 } :=
  ⟨rfl, rfl⟩

/-- Claim C4 amended: stream_events performs no empty-batch check; for the
empty event list it issues the store write with zero rows and, when the
store returns no errors, reports success with rows_inserted zero. -/
theorem stream_events_empty_batch (dt : Nat) (rest : List (AttemptResponse × Nat)) :
    (stream_events [] ((AttemptResponse.errors [], dt) :: rest)).2 =
      [{ rows := [], row_ids := [] }] ∧
    (stream_events [] ((AttemptResponse.errors [], dt) :: rest)).1 =
      Except.ok
        { success := true, errors := none, rows_inserted := some 0,
          latency_seconds := dt } :=
  ⟨rfl, rfl⟩

/-! ## Claim C10: the reported insert count ignores dedup suppression -/

/-- Claim C10: whenever the store returns no row errors, stream_events
reports success with rows_inserted equal to the length of the submitted
list; in particular a batch of two events sharing one idempotency key,
whose second row the dedup window suppresses in the store, is still
reported as two rows inserted. -/
theorem stream_events_counts_duplicates (events : List GAEvent) (dt : Nat)
    (rest : List (AttemptResponse × Nat)) :
    (stream_events events ((AttemptResponse.errors [], dt) :: rest)).1 =
      Except.ok
        { success := true, errors := none, rows_inserted := some events.length,
          latency_seconds := dt } ∧
    (stream_events [⟨"dupkey", "p"⟩, ⟨"dupkey", "p"⟩]
        ((AttemptResponse.errors [], dt) :: rest)).1 =
      Except.ok
        { success := true, errors := none, rows_inserted := some 2,
          latency_seconds := dt } :=
  ⟨rfl, rfl⟩

/-! ## Claim C7: error handling of the freshness reads -/

/-- Claim C7 counterexample: EventStreamer.get_recent_events has no error
handling; when the backing table does not exist the raised query error
propagates to the caller instead of becoming an empty result. -/
theorem get_recent_events_propagates_error :
    get_recent_events (Except.error QueryError.tableNotFound) =
      Except.error QueryError.tableNotFound ∧
    get_recent_events (Except.error QueryError.tableNotFound) ≠ Except.ok [] := by
  refine ⟨rfl, ?_⟩
  intro h
  simp [get_recent_events] at h

/-- Claim C7 amended: of the two freshness reads, only the dashboard's
load_live_events swallows a failed query into an empty result;
EventStreamer.get_recent_events propagates the error to the caller, while
both return the query rows unchanged on success. -/
theorem freshness_reads_amended (e : QueryError) (liveRows : List LiveEventRow)
    (recentRows : List RecentEventRow) :
    load_live_events (Except.error e) = [] ∧
    load_live_events (Except.ok liveRows) = liveRows ∧
    get_recent_events (Except.error e) = Except.error e ∧
    get_recent_events (Except.ok recentRows) = Except.ok recentRows := by
  refine ⟨rfl, rfl, rfl, ?_⟩
  simp [get_recent_events]

/-! ## Claim C8: the freshness classification thresholds -/

/-- Claim C8: for a non-empty live-events result whose minimum seconds_ago
value is m, the dashboard shows the banner for m, and that banner matches
the spec policy tier for tier: a success box below 60 seconds exactly when
the spec tier is live, a warning box below 300 exactly when degraded, an
error box otherwise exactly when stale; in particular ages 10, 120 and 600
give the success, warning and error boxes. -/
theorem freshness_classification (ages : List Int) (m : Int) (h : ages.min? = some m) :
    liveFeedStatus ages = some (freshnessBanner m) ∧
    (specFreshnessClass m = SpecFreshness.live ↔ freshnessBanner m = Banner.success "Live") ∧
    (specFreshnessClass m = SpecFreshness.degraded ↔ freshnessBanner m = Banner.warning "Recent") ∧
    (specFreshnessClass m = SpecFreshness.stale ↔ freshnessBanner m = Banner.error "Stale") ∧
    freshnessBanner 10 = Banner.success "Live" ∧
    freshnessBanner 120 = Banner.warning "Recent" ∧
    freshnessBanner 600 = Banner.error "Stale" := by
  refine ⟨by simp [liveFeedStatus, h], ?_, ?_, ?_, by decide, by decide, by decide⟩ <;>
    by_cases h60 : m < 60 <;> by_cases h300 : m < 300 <;>
      simp [specFreshnessClass, freshnessBanner, h60, h300]

/-- Witness for claim C8 on the one-row result of age 10 seconds. -/
theorem freshness_classification_witness :
    ([(10 : Int)].min? = some 10) ∧
    (liveFeedStatus [(10 : Int)] = some (freshnessBanner 10) ∧
      (specFreshnessClass 10 = SpecFreshness.live ↔ freshnessBanner 10 = Banner.success "Live") ∧
      (specFreshnessClass 10 = SpecFreshness.degraded ↔
        freshnessBanner 10 = Banner.warning "Recent") ∧
      (specFreshnessClass 10 = SpecFreshness.stale ↔ freshnessBanner 10 = Banner.error "Stale") ∧
      freshnessBanner 10 = Banner.success "Live" ∧
      freshnessBanner 120 = Banner.warning "Recent" ∧
      freshnessBanner 600 = Banner.error "Stale") :=
  ⟨by decide, freshness_classification [(10 : Int)] 10 (by decide)⟩

/-! ## Claim C9: the dedup verifier -/

/-- Claim C9: verify_deduplication returns true exactly when the store
holds exactly one row whose event_id equals the key; for zero rows or for
two or more rows it returns false. -/
theorem verify_deduplication_iff (store : List StoredRow) (eid : String) :
    verify_deduplication store eid = true ↔
      (store.filter (fun r => r.event_id == eid)).length = 1 := by
  simp [verify_deduplication, dedupQueryCount]

end CustomerLabs
